import Mathlib

/-!
Verification of the context-extraction parser in `tcc.py` (ThursdayChecker).

The definitions below are a shallow embedding of the Python source:

* `pyStrip`, `pyStartsWith`, `pyDrop`, `pySplitSemi` model the Python string
  operations `str.strip()`, `str.startswith(p)`, `s[n:]`, `s.split(";")[0]`.
* `Feedback` models the `Feedback` class (id / feedback / context / ac).
* `ScanState` models the mutable state of one `Report` plus the local
  `fb_block` variable of `Report.parse` and the process-wide class counter
  `Feedback._ids` (an `itertools.count(0)` shared by every `Feedback`
  object created in the process, regardless of which `Report` owns it).
* `scanLine` models the body of the `for line in f` loop of `Report.parse`;
  `scanLines` folds it over the stream.
* `retrofitGo` models `Report.__retrofit_ACs`, returning `none` when the
  Python code would raise an uncaught `IndexError`
  (`self.all_accessions[-1]` on an empty list).
* `parse` models a complete run of `Report.parse` on an in-memory stream,
  parameterised by the process-wide id counter's current value.
-/

namespace Tcc

/-- Python whitespace as stripped by `str.strip()` (ASCII range). -/
def isPyWs (c : Char) : Bool :=
  c == ' ' || c == '\t' || c == '\n' || c == '\r' || c == '\x0b' || c == '\x0c'

/-- Python `s.strip()`: remove leading and trailing whitespace. -/
def pyStrip (s : String) : String :=
  String.mk (((s.data.dropWhile isPyWs).reverse.dropWhile isPyWs).reverse)

/-- Does `pat` occur at the head of `s`? (char-list version). -/
def listStarts : List Char → List Char → Bool
  | [], _ => true
  | _ :: _, [] => false
  | a :: as, b :: bs => a == b && listStarts as bs

/-- Python `s.startswith(pat)`. -/
def pyStartsWith (s pat : String) : Bool :=
  listStarts pat.data s.data

/-- Python `s[n:]` (by code point, as in Python). -/
def pyDrop (s : String) (n : Nat) : String :=
  String.mk (s.data.drop n)

/-- Python `s.split(";")[0]`: everything before the first semicolon
(the whole string when there is none). -/
def pySplitSemi (s : String) : String :=
  String.mk (s.data.takeWhile (fun c => c ≠ ';'))

/-- Python `"\n".join(l)`. -/
def joinNL : List String → String
  | [] => ""
  | [s] => s
  | s :: rest => s ++ "\n" ++ joinNL rest

/-- One feedback item: `Feedback` in `tcc.py`.  `feedback` and `context`
are the accumulated contents of the two `StringIO` buffers; `ac` is the
UniProt accession (`None` modelled as `none`); `id` is the value drawn
from the process-wide counter `Feedback._ids`. -/
structure Feedback where
  id : Nat
  feedback : String
  context : String
  ac : Option String
deriving DecidableEq

/-- `Feedback.add_feedback`: the text contributed by one `##` line,
`aString[2:].strip() + " "`. -/
def addFeedbackText (line : String) : String :=
  pyStrip (pyDrop line 2) ++ " "

/-- Append one `##` line's text to an item (`fb.add_feedback(line)`). -/
def appendFb (line : String) (fb : Feedback) : Feedback :=
  { fb with feedback := fb.feedback ++ addFeedbackText line }

/-- `deque(maxlen=10).append`: push one (stripped) line, dropping from the
left beyond 10 entries.  `Report.scanner`, oldest first. -/
def pushScanner (sc : List String) (entry : String) : List String :=
  let sc2 := sc ++ [entry]
  if sc2.length > 10 then sc2.drop (sc2.length - 10) else sc2

/-- Middle character class of `Report.ac_regex`: the Python class
`[A-Z,0-9]`, i.e. an uppercase letter, a comma, or a digit. -/
def acMid (c : Char) : Bool :=
  c.isUpper || c == ',' || c.isDigit

/-- `Report.ac_regex.match(line)`: the unanchored pattern
`[A-Z][0-9][A-Z,0-9][A-Z,0-9][A-Z,0-9][0-9]` tested at the start of the
line (Python `re.match` anchors at position 0 only and does not require
the match to span the whole line).  Returns `match.group(0)`. -/
def acMatch (line : String) : Option String :=
  match line.data with
  | c0 :: c1 :: c2 :: c3 :: c4 :: c5 :: _ =>
    if c0.isUpper && c1.isDigit && acMid c2 && acMid c3 && acMid c4 && c5.isDigit
    then some (String.mk [c0, c1, c2, c3, c4, c5]) else none
  | _ => none

/-- `Report.context_regex.search(line)` for the pattern `#[0-9][0-9]?`:
find the leftmost `#` that is followed by a digit; return that digit and
whether a second digit follows (the `?` is greedy, so a second digit is
consumed when present, giving a length-3 match). -/
def ctxSearch : List Char → Option (Char × Bool)
  | [] => none
  | c :: rest =>
    if c = '#' then
      match rest with
      | d :: rest2 =>
        if d.isDigit then some (d, (rest2.headD 'x').isDigit) else ctxSearch rest
      | [] => none
    else ctxSearch rest

/-- `Report.__check_for_context`: a length-2 match `#d` sets the context
size to the digit `d`; a length-3 match (two digits) caps it at 9; no
match leaves the current value. -/
def checkForContext (cur : Nat) (line : String) : Nat :=
  match ctxSearch line.data with
  | some (d, false) => d.toNat - 48
  | some (_, true) => 9
  | none => cur

/-- `Report.__extract_context`: the slice
`d_list[end_idx - ctx : end_idx]` (or `d_list[0 : end_idx]` when the
start index would be negative) of the scanner, where
`end_idx = len(scanner) - 1`, so the most recently pushed line (the
annotation line itself) is excluded.  Returned before `"\n".join`. -/
def extractContextList (sc : List String) (ctx : Nat) : List String :=
  let n : Int := sc.length
  let endIdx : Int := n - 1
  let startIdx : Int := endIdx - (ctx : Int)
  if 0 ≤ startIdx then (sc.take (sc.length - 1)).drop startIdx.toNat
  else sc.take (sc.length - 1)

/-- The joined context string actually stored by `add_context`. -/
def extractContext (sc : List String) (ctx : Nat) : String :=
  joinNL (extractContextList sc ctx)

/-- State of one run of `Report.parse`: the `Report` attributes used by
the parser, the loop-local `fb_block`, and the process-wide value of the
`Feedback._ids` counter. -/
structure ScanState where
  scanner : List String
  current_entry : Option String
  current_context : Nat
  all_accessions : List (Option String)
  all_feedback : List Feedback
  fb_block : Bool
  counter : Nat
deriving DecidableEq

/-- A fresh `Report` (its `__init__` defaults) about to parse, with the
process-wide id counter currently at `counter`. -/
def initState (counter : Nat) : ScanState :=
  { scanner := [], current_entry := none, current_context := 1,
    all_accessions := [], all_feedback := [], fb_block := false,
    counter := counter }

/-- Mutate the last element of a list (models in-place mutation of
`all_feedback[-1]`).  In the source this is reached only with
`fb_block = true`, which guarantees the list is nonempty. -/
def updateLast (f : Feedback → Feedback) : List Feedback → List Feedback
  | [] => []
  | [x] => [f x]
  | x :: xs => x :: updateLast f xs

/-- One iteration of the `for line in f` loop of `Report.parse`.  The
raw line is pushed (stripped) onto the scanner first; then the `elif`
chain classifies the raw line:
1. `line.startswith("AC ")`: record start; `current_entry` becomes
   `line[5:].split(";")[0]`, `fb_block` ends.
2. `line.startswith("AC:")`: logfile line, ignored entirely (`pass`).
3. `ac_regex.match(line)` succeeded: adopt the matched token as
   `current_entry` only when it is still unset.
4. `line.startswith("##")`: open a new item (when no block is open):
   fresh id from the counter, accession from `current_entry`, context
   size re-checked from 1 via the directive, context snapshot taken,
   first text chunk appended — or append text to the open item.
5. `line.startswith("//")`: `__reset` — record `current_entry` in
   `all_accessions`, clear it, context size back to 1, scanner cleared.
6. anything else: `fb_block = false`. -/
def scanLine (st0 : ScanState) (line : String) : ScanState :=
  let st := { st0 with scanner := pushScanner st0.scanner (pyStrip line) }
  if pyStartsWith line "AC " then
    { st with fb_block := false,
              current_entry := some (pySplitSemi (pyDrop line 5)) }
  else if pyStartsWith line "AC:" then
    st
  else
    match acMatch line with
    | some m =>
      if st.current_entry = none then { st with current_entry := some m } else st
    | none =>
      if pyStartsWith line "##" then
        if st.fb_block = false then
          let ctx := checkForContext 1 line
          let fb : Feedback :=
            { id := st.counter, feedback := addFeedbackText line,
              context := extractContext st.scanner ctx,
              ac := st.current_entry }
          { st with fb_block := true, counter := st.counter + 1,
                    current_context := ctx,
                    all_feedback := st.all_feedback ++ [fb] }
        else
          { st with all_feedback := updateLast (appendFb line) st.all_feedback }
      else if pyStartsWith line "//" then
        { st with fb_block := false, current_context := 1,
                  all_accessions := st.all_accessions ++ [st.current_entry],
                  current_entry := none, scanner := [] }
      else
        { st with fb_block := false }

/-- The whole scan loop over an in-memory line stream. -/
def scanLines (st : ScanState) (lines : List String) : ScanState :=
  lines.foldl scanLine st

/-- `Report.__retrofit_ACs`: walk `all_feedback` in order; an item with
`ac is None` receives the `ac` of the next item (still unmodified at
that point in the walk); for the last item, `all_feedback[fb_idx + 1]`
raises `IndexError`, caught and answered with `all_accessions[-1]` —
which itself raises an uncaught `IndexError` (modelled as `none`) when
`all_accessions` is empty. -/
def retrofitGo (accs : List (Option String)) : List Feedback → Option (List Feedback)
  | [] => some []
  | fb :: rest =>
    if fb.ac = none then
      match rest with
      | nxt :: _ => (retrofitGo accs rest).map (fun r => { fb with ac := nxt.ac } :: r)
      | [] =>
        match accs.getLast? with
        | some a => some [{ fb with ac := a }]
        | none => none
    else (retrofitGo accs rest).map (fun r => fb :: r)

/-- A complete run of `Report.parse` on the stream `lines` by a fresh
`Report`, with the process-wide `Feedback._ids` counter currently at
`counter`.  Yields the retrofitted feedback items, the recorded
accessions, and the counter's new value — or `none` when the run raises
(`IndexError` escaping `__retrofit_ACs`). -/
def parse (counter : Nat) (lines : List String) :
    Option (List Feedback × List (Option String) × Nat) :=
  let st := scanLines (initState counter) lines
  (retrofitGo st.all_accessions st.all_feedback).map
    (fun fbs => (fbs, st.all_accessions, st.counter))

/-- What the backfill pass assigns at index `i` (the amended reading of
the spec's backfill paragraph): the item's own accession when set at
creation; otherwise the creation-time accession of the item at `i + 1`
(which may itself be unset, leaving this item unset); for the last item,
the last entry of the recorded accessions. -/
def backfillAcAt (accs : List (Option String)) (fbs : List Feedback) (i : Nat) :
    Option (Option String) :=
  (fbs[i]?).map (fun fb =>
    if fb.ac = none then ((fbs[i + 1]?).map Feedback.ac).getD accs.getLast?.join
    else fb.ac)

/-- C7 (amended) comparison pattern, following the amended claim's
words: one uppercase letter, one digit, three characters each of which
is an uppercase letter, a comma, or a digit (the Python class
`[A-Z,0-9]` includes the comma), one digit — tested against the first
six characters of the line. -/
def acMatchSpec (line : String) : Bool :=
  match line.data with
  | c0 :: c1 :: c2 :: c3 :: c4 :: c5 :: _ =>
    c0.isUpper && c1.isDigit
      && (c2.isUpper || c2 == ',' || c2.isDigit)
      && (c3.isUpper || c3 == ',' || c3.isDigit)
      && (c4.isUpper || c4 == ',' || c4.isDigit)
      && c5.isDigit
  | _ => false

/-- C7 (original claim) comparison pattern, following the claim's
words: one uppercase letter, one digit, three *alphanumeric*
characters, one digit. -/
def secIdAlnumSpec (line : String) : Bool :=
  match line.data with
  | c0 :: c1 :: c2 :: c3 :: c4 :: c5 :: _ =>
    c0.isUpper && c1.isDigit && c2.isAlphanum && c3.isAlphanum
      && c4.isAlphanum && c5.isDigit
  | _ => false

/-- How many lines have been consumed since the most recent record-end
line (or since the start of the stream when there is none): the length
of the longest suffix free of `//`-prefixed lines. -/
def linesSinceBoundary (lines : List String) : Nat :=
  (lines.reverse.takeWhile (fun l => !(pyStartsWith l "//"))).length

/-- Shift a feedback item's process-wide id by `c` (the effect of `c`
earlier `Feedback` creations in the same process). -/
def shiftFb (c : Nat) (fb : Feedback) : Feedback :=
  { fb with id := fb.id + c }

/-- Shift a whole scan state's ids and counter by `c`. -/
def shiftScan (c : Nat) (st : ScanState) : ScanState :=
  { st with all_feedback := st.all_feedback.map (shiftFb c),
            counter := st.counter + c }

/-! ## Helper lemmas -/

/-- On a `##` line (with no open block), `scanLine` takes the
annotation-opening branch and the new context size is the directive
check applied to the default 1. -/
theorem scanLine_annot_context (st : ScanState) (line : String)
    (h1 : pyStartsWith line "AC " = false) (h2 : pyStartsWith line "AC:" = false)
    (h3 : acMatch line = none) (h4 : pyStartsWith line "##" = true)
    (h5 : st.fb_block = false) :
    (scanLine st line).current_context = checkForContext 1 line := by
  simp [scanLine, h1, h2, h3, h4, h5]

/-- Unfolding equation of `retrofitGo` for a single remaining item. -/
theorem retrofitGo_single (accs : List (Option String)) (fb : Feedback) :
    retrofitGo accs [fb]
      = if fb.ac = none
        then (match accs.getLast? with
              | some a => some [{ fb with ac := a }]
              | none => none)
        else some [fb] := rfl

/-- Unfolding equation of `retrofitGo` with at least two remaining items. -/
theorem retrofitGo_cons_cons (accs : List (Option String)) (fb n2 : Feedback)
    (rs : List Feedback) :
    retrofitGo accs (fb :: n2 :: rs)
      = if fb.ac = none
        then (retrofitGo accs (n2 :: rs)).map (fun r => { fb with ac := n2.ac } :: r)
        else (retrofitGo accs (n2 :: rs)).map (fun r => fb :: r) := rfl

/-- Index-wise characterization of `__retrofit_ACs` on success. -/
theorem retrofitGo_get (accs : List (Option String)) (fbs r : List Feedback)
    (h : retrofitGo accs fbs = some r) (i : Nat) :
    (r[i]?).map Feedback.ac = backfillAcAt accs fbs i := by
  induction fbs generalizing r i with
  | nil =>
    simp only [retrofitGo, Option.some.injEq] at h
    subst h
    simp [backfillAcAt]
  | cons fb rest ih =>
    cases rest with
    | nil =>
      rw [retrofitGo_single] at h
      by_cases hac : fb.ac = none
      · rw [if_pos hac] at h
        cases hl : accs.getLast? with
        | none => rw [hl] at h; exact absurd h (by simp)
        | some a =>
          rw [hl] at h
          simp only [Option.some.injEq] at h
          subst h
          cases i with
          | zero => simp [backfillAcAt, hac, hl]
          | succ j => simp [backfillAcAt]
      · rw [if_neg hac] at h
        simp only [Option.some.injEq] at h
        subst h
        cases i with
        | zero => simp [backfillAcAt, hac]
        | succ j => simp [backfillAcAt]
    | cons n2 rs =>
      rw [retrofitGo_cons_cons] at h
      by_cases hac : fb.ac = none
      · rw [if_pos hac, Option.map_eq_some'] at h
        obtain ⟨r', hr', hr⟩ := h
        subst hr
        cases i with
        | zero => simp [backfillAcAt, hac]
        | succ j =>
          have hj := ih r' hr' j
          simpa [backfillAcAt, List.getElem?_cons_succ] using hj
      · rw [if_neg hac, Option.map_eq_some'] at h
        obtain ⟨r', hr', hr⟩ := h
        subst hr
        cases i with
        | zero => simp [backfillAcAt, hac]
        | succ j =>
          have hj := ih r' hr' j
          simpa [backfillAcAt, List.getElem?_cons_succ] using hj

/-- `__retrofit_ACs` raises (an uncaught `IndexError`) exactly when the
last feedback item has an unset accession and no accession was ever
recorded. -/
theorem retrofitGo_eq_none_iff (accs : List (Option String)) (fbs : List Feedback) :
    retrofitGo accs fbs = none ↔
      fbs.getLast?.map Feedback.ac = some none ∧ accs = [] := by
  induction fbs with
  | nil => simp [retrofitGo]
  | cons fb rest ih =>
    cases rest with
    | nil =>
      rw [retrofitGo_single]
      by_cases hac : fb.ac = none
      · rw [if_pos hac]
        cases hl : accs.getLast? with
        | none =>
          have hacc : accs = [] := List.getLast?_eq_none_iff.mp hl
          simp [hac, hacc]
        | some a =>
          have hacc : accs ≠ [] := by
            intro he
            rw [he] at hl
            simp at hl
          simp [hac, hacc]
      · rw [if_neg hac]
        simp [hac]
    | cons n2 rs =>
      rw [retrofitGo_cons_cons]
      by_cases hac : fb.ac = none
      · rw [if_pos hac]
        simp [Option.map_eq_none', ih, List.getLast?_cons_cons]
      · rw [if_neg hac]
        simp [Option.map_eq_none', ih, List.getLast?_cons_cons]

/-- A successful two-character prefix test exposes the head of the list. -/
theorem listStarts_two (a b : Char) (cs : List Char)
    (h : listStarts [a, b] cs = true) : ∃ t, cs = a :: b :: t := by
  match cs with
  | [] => simp [listStarts] at h
  | [c] => simp [listStarts] at h
  | c :: d :: t =>
    simp only [listStarts, Bool.and_eq_true, beq_iff_eq] at h
    exact ⟨t, by rw [h.1, h.2.1]⟩

/-- `ac_regex` cannot match a line whose first character is not an
uppercase letter. -/
theorem acMatch_eq_none_of_head (l : String) (c : Char) (cs : List Char)
    (hd : l.data = c :: cs) (hc : c.isUpper = false) : acMatch l = none := by
  unfold acMatch
  rw [hd]
  rcases cs with _ | ⟨c1, _ | ⟨c2, _ | ⟨c3, _ | ⟨c4, _ | ⟨c5, t⟩⟩⟩⟩⟩ <;>
    simp [hc]

/-- A record-end line (`//` prefix) takes the `__reset` branch. -/
theorem scanLine_slash (st : ScanState) (l : String)
    (h : pyStartsWith l "//" = true) :
    scanLine st l
      = { st with scanner := [], current_entry := none, current_context := 1,
                  all_accessions := st.all_accessions ++ [st.current_entry],
                  fb_block := false } := by
  obtain ⟨t, ht⟩ := listStarts_two '/' '/' l.data h
  have h1 : pyStartsWith l "AC " = false := by simp only [pyStartsWith, ht]; rfl
  have h2 : pyStartsWith l "AC:" = false := by simp only [pyStartsWith, ht]; rfl
  have h3 : acMatch l = none := acMatch_eq_none_of_head l '/' ('/' :: t) ht rfl
  have h4 : pyStartsWith l "##" = false := by simp only [pyStartsWith, ht]; rfl
  simp [scanLine, h1, h2, h3, h4, h]

/-- Non-record-end lines never touch `all_accessions`. -/
theorem scanLine_not_slash_accessions (st : ScanState) (l : String)
    (h : pyStartsWith l "//" = false) :
    (scanLine st l).all_accessions = st.all_accessions := by
  by_cases h1 : pyStartsWith l "AC " = true <;>
  by_cases h2 : pyStartsWith l "AC:" = true <;>
  rcases h3 : acMatch l with _ | m <;>
  by_cases h4 : pyStartsWith l "##" = true <;>
  by_cases h6 : st.fb_block = false <;>
  by_cases h7 : st.current_entry = none <;>
  simp [scanLine, h1, h2, h3, h4, h6, h7, h]

/-- Splitting one line off the end of a scan. -/
theorem scanLines_concat (st : ScanState) (lines : List String) (l : String) :
    scanLines st (lines ++ [l]) = scanLine (scanLines st lines) l := by
  simp [scanLines, List.foldl_append]

/-- `all_accessions` stays empty exactly while no record-end line has
been consumed. -/
theorem scanLines_accessions_nil_iff (c : Nat) (lines : List String) :
    (scanLines (initState c) lines).all_accessions = [] ↔
      ∀ l ∈ lines, pyStartsWith l "//" = false := by
  induction lines using List.reverseRecOn with
  | nil => simp [scanLines, initState]
  | append_singleton ls l ih =>
    rw [scanLines_concat]
    by_cases h : pyStartsWith l "//" = true
    · rw [scanLine_slash _ _ h]
      simp [List.forall_mem_append, List.forall_mem_singleton, h]
      exact ⟨l, Or.inr rfl, h⟩
    · have h' : pyStartsWith l "//" = false := by simpa using h
      rw [scanLine_not_slash_accessions _ _ h']
      simp [List.forall_mem_append, List.forall_mem_singleton, ih, h']
      constructor
      · intro hall x hx
        rcases hx with hx | hx
        · exact hall x hx
        · rw [hx]
          exact h'
      · intro hall x hx
        exact hall x (Or.inl hx)

/-- A marker line cannot be a record-end line. -/
theorem hash_not_slash (l : String) (h : pyStartsWith l "##" = true) :
    pyStartsWith l "//" = false := by
  obtain ⟨t, ht⟩ := listStarts_two '#' '#' l.data h
  simp only [pyStartsWith, ht]
  rfl

/-- Non-record-end lines leave the scanner at the freshly pushed value. -/
theorem scanLine_not_slash_scanner (st : ScanState) (l : String)
    (h : pyStartsWith l "//" = false) :
    (scanLine st l).scanner = pushScanner st.scanner (pyStrip l) := by
  by_cases h1 : pyStartsWith l "AC " = true <;>
  by_cases h2 : pyStartsWith l "AC:" = true <;>
  rcases h3 : acMatch l with _ | m <;>
  by_cases h4 : pyStartsWith l "##" = true <;>
  by_cases h6 : st.fb_block = false <;>
  by_cases h7 : st.current_entry = none <;>
  simp [scanLine, h1, h2, h3, h4, h6, h7, h]

/-- Length of a `deque(maxlen=10)` after one append. -/
theorem pushScanner_length (sc : List String) (s : String) :
    (pushScanner sc s).length = min 10 (sc.length + 1) := by
  simp only [pushScanner]
  split <;> rename_i hlen <;>
    simp only [List.length_drop, List.length_append, List.length_singleton]
      at hlen ⊢ <;>
    omega

/-- `__extract_context` returns `min(requested, available - 1)` lines:
the annotation line itself is excluded, and a short scanner caps the
result. -/
theorem extractContextList_length (sc : List String) (ctx : Nat) :
    (extractContextList sc ctx).length = min ctx (sc.length - 1) := by
  simp only [extractContextList]
  split <;> (simp [List.length_drop, List.length_take]; omega)

/-- Consuming one more non-record-end line lengthens the boundary-free
suffix by one; a record-end line resets it. -/
theorem linesSinceBoundary_append (lines : List String) (l : String) :
    linesSinceBoundary (lines ++ [l])
      = if pyStartsWith l "//" = true then 0 else linesSinceBoundary lines + 1 := by
  simp only [linesSinceBoundary, List.reverse_append, List.reverse_singleton,
             List.singleton_append, List.takeWhile_cons]
  by_cases h : pyStartsWith l "//" = true <;> simp [h]

/-- The scanner holds `min 10 (lines since the last record boundary)`
entries. -/
theorem scanLines_scanner_length (c : Nat) (lines : List String) :
    (scanLines (initState c) lines).scanner.length
      = min 10 (linesSinceBoundary lines) := by
  induction lines using List.reverseRecOn with
  | nil => simp [scanLines, initState, linesSinceBoundary]
  | append_singleton ls l ih =>
    rw [scanLines_concat, linesSinceBoundary_append]
    by_cases h : pyStartsWith l "//" = true
    · rw [scanLine_slash _ _ h, if_pos h]
      simp
    · have h' : pyStartsWith l "//" = false := by simpa using h
      rw [scanLine_not_slash_scanner _ _ h', pushScanner_length, ih, if_neg h]
      omega

/-- On a `##` line with no open block, `scanLine` appends exactly one
new item, built from the current state. -/
theorem scanLine_annot_feedback (st : ScanState) (line : String)
    (h1 : pyStartsWith line "AC " = false) (h2 : pyStartsWith line "AC:" = false)
    (h3 : acMatch line = none) (h4 : pyStartsWith line "##" = true)
    (h5 : st.fb_block = false) :
    (scanLine st line).all_feedback
      = st.all_feedback
        ++ [{ id := st.counter, feedback := addFeedbackText line,
              context := extractContext (pushScanner st.scanner (pyStrip line))
                           (checkForContext 1 line),
              ac := st.current_entry }] := by
  simp [scanLine, h1, h2, h3, h4, h5]

/-- `updateLast` with a text append commutes with an id shift (the two
touch disjoint fields). -/
theorem updateLast_map_shift (c : Nat) (line : String) (l : List Feedback) :
    updateLast (appendFb line) (l.map (shiftFb c))
      = (updateLast (appendFb line) l).map (shiftFb c) := by
  induction l with
  | nil => rfl
  | cons x xs ih =>
    cases xs with
    | nil => rfl
    | cons y ys =>
      simp only [List.map_cons, updateLast] at ih ⊢
      rw [ih]

/-- The scan step only ever reads the counter to mint a fresh id, so it
commutes with shifting the process-wide counter. -/
theorem scanLine_shift (c : Nat) (st : ScanState) (l : String) :
    scanLine (shiftScan c st) l = shiftScan c (scanLine st l) := by
  by_cases h1 : pyStartsWith l "AC " = true <;>
  by_cases h2 : pyStartsWith l "AC:" = true <;>
  rcases h3 : acMatch l with _ | m <;>
  by_cases h4 : pyStartsWith l "##" = true <;>
  by_cases h6 : st.fb_block = false <;>
  by_cases h7 : st.current_entry = none <;>
  by_cases h8 : pyStartsWith l "//" = true <;>
  simp [scanLine, shiftScan, shiftFb, h1, h2, h3, h4, h6, h7, h8,
        updateLast_map_shift, List.map_append, Nat.add_right_comm]

/-- Whole-scan version of `scanLine_shift`. -/
theorem scanLines_shift (c : Nat) (st : ScanState) (lines : List String) :
    scanLines (shiftScan c st) lines = shiftScan c (scanLines st lines) := by
  induction lines generalizing st with
  | nil => rfl
  | cons l ls ih =>
    simp only [scanLines, List.foldl_cons]
    rw [scanLine_shift]
    exact ih _

/-- A fresh report at counter `c` is the shifted fresh report. -/
theorem initState_shift (c : Nat) : initState c = shiftScan c (initState 0) := by
  simp [initState, shiftScan]

/-- The backfill never reads ids, so it commutes with the shift. -/
theorem retrofitGo_map_shift (c : Nat) (accs : List (Option String))
    (fbs : List Feedback) :
    retrofitGo accs (fbs.map (shiftFb c))
      = (retrofitGo accs fbs).map (List.map (shiftFb c)) := by
  induction fbs with
  | nil => rfl
  | cons fb rest ih =>
    cases rest with
    | nil =>
      by_cases hac : fb.ac = none
      · cases hl : accs.getLast? <;>
          simp [retrofitGo_single, shiftFb, hac, hl]
      · simp [retrofitGo_single, shiftFb, hac]
    | cons n2 rs =>
      simp only [List.map_cons] at ih ⊢
      rw [retrofitGo_cons_cons, retrofitGo_cons_cons, ih]
      by_cases hac : fb.ac = none <;>
        cases hrg : retrofitGo accs (n2 :: rs) <;>
          simp [shiftFb, hac, hrg]

/-! ## Claims -/

/-- C1 (counterexample): on the five-line stream of the claim, the code
does not produce an item with context `"ID foo\nXX"` and accession
`"P12345"`: the default context size is 1 (one line, `"XX"`), and the
`AC` line of the stream has only two spaces, so `line[5:]` also strips
the leading `P`, leaving accession `"12345"`. -/
theorem tcc_C1_cex :
    (parse 0 ["ID foo\n", "XX\n", "## note one\n", "AC  P12345;\n", "//\n"]).map
        (fun r => r.1.map (fun fb => (fb.feedback, fb.context, fb.ac)))
      ≠ some [("note one ", "ID foo\nXX", some "P12345")] := by decide

/-- C1 (amended): parsing the five-line stream with a fresh parser
produces exactly one FeedbackItem whose accumulated text is
`"note one "`, whose context is the single line `"XX"` (the default
context size is 1), and whose accession, after the backfill pass, is
`"12345"` (the stream's `AC` line has two spaces after `AC`, and the
code removes a fixed five-character head `"AC  P"`). -/
theorem tcc_C1 :
    (parse 0 ["ID foo\n", "XX\n", "## note one\n", "AC  P12345;\n", "//\n"]).map
        (fun r => r.1.map (fun fb => (fb.feedback, fb.context, fb.ac)))
      = some [("note one ", "XX", some "12345")] := by decide

/-- C2 (counterexample): with two consecutively created items of unset
accession followed by an item created with accession `"P22222"`, the
earlier of the two does NOT receive `"P22222"`: the backfill copies the
immediately next item's accession, which is still unset at that moment,
so the first item stays unset. -/
theorem tcc_C2_cex :
    (parse 0 ["## a\n", "XX\n", "## b\n", "XX\n", "AC   P22222;\n", "## c\n", "//\n"]).map
        (fun r => r.1.map Feedback.ac)
      = some [none, some "P22222", some "P22222"]
    ∧ (parse 0 ["## a\n", "XX\n", "## b\n", "XX\n", "AC   P22222;\n", "## c\n", "//\n"]).map
        (fun r => r.1.map Feedback.ac)
      ≠ some [some "P22222", some "P22222", some "P22222"] := by
  constructor
  · decide
  · decide

/-- C2 (amended): after the stream is exhausted, the backfill assigns to
every item with unset accession the creation-time accession of the
*immediately next* item in creation order — not of the next item that
has one; when that neighbour is itself unset, the item stays unset.
Only the last item falls back to the last entry of the recorded
accessions (raising when none was recorded). -/
theorem tcc_C2 (accs : List (Option String)) (fbs r : List Feedback)
    (h : retrofitGo accs fbs = some r) (i : Nat) :
    (r[i]?).map Feedback.ac = backfillAcAt accs fbs i :=
  retrofitGo_get accs fbs r h i

/-- Witness for C2 on a concrete backfill run. -/
theorem tcc_C2_witness :
    retrofitGo [some "Q"]
        [⟨0, "a ", "", none⟩, ⟨1, "b ", "", none⟩, ⟨2, "c ", "", some "P"⟩]
      = some [⟨0, "a ", "", none⟩, ⟨1, "b ", "", some "P"⟩, ⟨2, "c ", "", some "P"⟩]
    ∧ (([⟨0, "a ", "", none⟩, ⟨1, "b ", "", some "P"⟩, ⟨2, "c ", "", some "P"⟩] :
          List Feedback)[0]?).map Feedback.ac
        = backfillAcAt [some "Q"]
            [⟨0, "a ", "", none⟩, ⟨1, "b ", "", none⟩, ⟨2, "c ", "", some "P"⟩] 0 :=
  ⟨by decide, tcc_C2 _ _ _ (by decide) 0⟩

/-- C3: for the first line of an annotation block, `"## #5 text"` sets
the context size to 5, any two-digit directive sets it to 9 regardless
of its value, a line with no directive leaves the default 1, and a
single-digit directive `#d` sets the size to `d` for every digit
0–9. -/
theorem tcc_C3 (st : ScanState) (h : st.fb_block = false) (d e : Nat)
    (hd : d ≤ 9) (he : e ≤ 9) :
    (scanLine st "## #5 text\n").current_context = 5
    ∧ (scanLine st "## #12 text\n").current_context = 9
    ∧ (scanLine st "## text\n").current_context = 1
    ∧ (scanLine st (String.mk ('#' :: '#' :: ' ' :: '#' :: Char.ofNat (48 + d) ::
        ' ' :: 't' :: 'e' :: 'x' :: 't' :: []))).current_context = d
    ∧ (scanLine st (String.mk ('#' :: '#' :: ' ' :: '#' :: Char.ofNat (48 + d) ::
        Char.ofNat (48 + e) :: ' ' :: 't' :: []))).current_context = 9 := by
  refine ⟨?_, ?_, ?_, ?_, ?_⟩
  · rw [scanLine_annot_context st _ (by decide) (by decide) (by decide) (by decide) h]
    decide
  · rw [scanLine_annot_context st _ (by decide) (by decide) (by decide) (by decide) h]
    decide
  · rw [scanLine_annot_context st _ (by decide) (by decide) (by decide) (by decide) h]
    decide
  · interval_cases d <;>
      (rw [scanLine_annot_context st _ (by decide) (by decide) (by decide) (by decide) h];
       decide)
  · interval_cases d <;> interval_cases e <;>
      (rw [scanLine_annot_context st _ (by decide) (by decide) (by decide) (by decide) h];
       decide)

/-- Witness for C3 at a concrete state and digits. -/
theorem tcc_C3_witness :
    (initState 0).fb_block = false ∧ (7 : Nat) ≤ 9 ∧ (3 : Nat) ≤ 9
    ∧ ((scanLine (initState 0) "## #5 text\n").current_context = 5
       ∧ (scanLine (initState 0) "## #12 text\n").current_context = 9
       ∧ (scanLine (initState 0) "## text\n").current_context = 1
       ∧ (scanLine (initState 0) (String.mk ('#' :: '#' :: ' ' :: '#' ::
            Char.ofNat (48 + 7) :: ' ' :: 't' :: 'e' :: 'x' :: 't' :: []))).current_context = 7
       ∧ (scanLine (initState 0) (String.mk ('#' :: '#' :: ' ' :: '#' ::
            Char.ofNat (48 + 7) :: Char.ofNat (48 + 3) :: ' ' :: 't' :: []))).current_context = 9) :=
  ⟨rfl, by decide, by decide, tcc_C3 (initState 0) rfl 7 3 (by decide) (by decide)⟩

/-- C4 (counterexample): the stream has a record-end line after the
item's creation, yet after the backfill the item's accession is still
unset: the record-end recorded `current_entry = None` into
`all_accessions`, and the backfill's last resort copies that `None`. -/
theorem tcc_C4_cex :
    pyStartsWith "//\n" "//" = true
    ∧ (parse 0 ["## a\n", "//\n"]).map (fun r => r.1.map Feedback.ac)
        = some [none] := by
  constructor
  · decide
  · decide

/-- C4 (amended): after a successful backfill pass, an item's accession
is set exactly when it was set at creation, or the immediately next
item in creation order was created with a set accession, or it is the
last item and the last recorded accession entry is set.  A record-end
or secondary-identifier line occurring after the item's creation does
not by itself guarantee a set accession. -/
theorem tcc_C4 (accs : List (Option String)) (fbs r : List Feedback) (i : Nat)
    (fb : Feedback) (h : retrofitGo accs fbs = some r) (hfb : fbs[i]? = some fb) :
    (∃ g, r[i]? = some g ∧ g.ac ≠ none) ↔
      (fb.ac ≠ none
       ∨ (∃ nxt, fbs[i + 1]? = some nxt ∧ nxt.ac ≠ none)
       ∨ (fbs[i + 1]? = none ∧ accs.getLast?.join ≠ none)) := by
  have hg := retrofitGo_get accs fbs r h i
  simp only [backfillAcAt, hfb, Option.map_some'] at hg
  cases hri : r[i]? with
  | none => rw [hri] at hg; simp at hg
  | some g =>
    rw [hri] at hg
    simp only [Option.map_some', Option.some.injEq] at hg
    by_cases hac : fb.ac = none
    · cases hnx : fbs[i + 1]? with
      | some nxt =>
        rw [hnx] at hg
        simp [hac] at hg
        simp [hri, hnx, hac, hg]
      | none =>
        rw [hnx] at hg
        simp [hac] at hg
        simp [hri, hnx, hac, hg]
    · simp [hac] at hg
      simp [hri, hac, hg]

/-- Witness for C4 on a concrete backfill run. -/
theorem tcc_C4_witness :
    retrofitGo [some "Z"] [⟨0, "a ", "", none⟩, ⟨1, "b ", "", some "P"⟩]
      = some [⟨0, "a ", "", some "P"⟩, ⟨1, "b ", "", some "P"⟩]
    ∧ ([⟨0, "a ", "", none⟩, ⟨1, "b ", "", some "P"⟩] : List Feedback)[0]?
        = some ⟨0, "a ", "", none⟩
    ∧ ((∃ g, ([⟨0, "a ", "", some "P"⟩, ⟨1, "b ", "", some "P"⟩] :
            List Feedback)[0]? = some g ∧ g.ac ≠ none) ↔
        ((⟨0, "a ", "", none⟩ : Feedback).ac ≠ none
         ∨ (∃ nxt, ([⟨0, "a ", "", none⟩, ⟨1, "b ", "", some "P"⟩] :
              List Feedback)[0 + 1]? = some nxt ∧ nxt.ac ≠ none)
         ∨ (([⟨0, "a ", "", none⟩, ⟨1, "b ", "", some "P"⟩] :
              List Feedback)[0 + 1]? = none
            ∧ ([some "Z"] : List (Option String)).getLast?.join ≠ none))) :=
  ⟨by decide, by decide, tcc_C4 _ _ _ 0 _ (by decide) (by decide)⟩

/-- C5 (counterexample): the claim says a complete parse run never
raises; on the single-line stream `["## a\n"]` the backfill's last
resort `all_accessions[-1]` raises an uncaught `IndexError` (there was
no record-end line), modelled here as `parse` returning `none`. -/
theorem tcc_C5_cex : parse 0 ["## a\n"] = none := by decide

/-- C5 (amended): the scan phase itself is total, and the whole run
(including the backfill) terminates without error *unless* the last
created item's accession is unset and the stream contained no
record-end line; in exactly that case `__retrofit_ACs` raises an
uncaught `IndexError`. -/
theorem tcc_C5 (c : Nat) (lines : List String) :
    parse c lines = none ↔
      ((scanLines (initState c) lines).all_feedback.getLast?.map Feedback.ac
          = some none
       ∧ ∀ l ∈ lines, pyStartsWith l "//" = false) := by
  simp only [parse, Option.map_eq_none']
  rw [retrofitGo_eq_none_iff, scanLines_accessions_nil_iff]

/-- C6 (counterexample): a line starting with `"AC:"` does not set
`in_annotation_block` to false — the `elif` branch for it is `pass` —
so a `##` line after it appends to the still-open item instead of
opening a new one: the stream of the claim yields one item with text
`"a b "` rather than two items. -/
theorem tcc_C6_cex :
    (scanLine { initState 0 with fb_block := true } "AC: x\n").fb_block ≠ false
    ∧ (parse 0 ["## a\n", "AC: x\n", "## b\n", "//\n"]).map
        (fun r => r.1.map Feedback.feedback) = some ["a b "] := by
  constructor
  · decide
  · decide

/-- C6 (amended): every line that is not a record-start line, not a
secondary-identifier line, not a marker line and not a record-end line
sets `in_annotation_block` to false — except lines beginning with
`"AC:"`, which are ignored entirely and leave `in_annotation_block`
unchanged. -/
theorem tcc_C6 (st : ScanState) (line : String)
    (h1 : pyStartsWith line "AC " = false)
    (h3 : acMatch line = none)
    (h4 : pyStartsWith line "##" = false)
    (h5 : pyStartsWith line "//" = false) :
    (scanLine st line).fb_block
      = if pyStartsWith line "AC:" then st.fb_block else false := by
  by_cases h2 : pyStartsWith line "AC:" = true
  · simp [scanLine, h1, h2, h3, h4, h5]
  · simp [scanLine, h1, h2, h3, h4, h5]

/-- Witness for C6 at a concrete state and line. -/
theorem tcc_C6_witness :
    pyStartsWith "plain\n" "AC " = false
    ∧ acMatch "plain\n" = none
    ∧ pyStartsWith "plain\n" "##" = false
    ∧ pyStartsWith "plain\n" "//" = false
    ∧ (scanLine (initState 3) "plain\n").fb_block
        = if pyStartsWith "plain\n" "AC:" then (initState 3).fb_block else false :=
  ⟨by decide, by decide, by decide, by decide,
   tcc_C6 (initState 3) "plain\n" (by decide) (by decide) (by decide) (by decide)⟩

/-- The regex classification agrees with the amended six-character
pattern in both directions, and on success the matched token is the
six-character head of the line. -/
theorem acMatch_eq_spec (line : String) :
    acMatch line
      = (if acMatchSpec line = true then some (String.mk (line.data.take 6))
         else none) := by
  unfold acMatch acMatchSpec
  rcases hd : line.data with _ | ⟨c0, _ | ⟨c1, _ | ⟨c2, _ | ⟨c3, _ | ⟨c4, _ | ⟨c5, t⟩⟩⟩⟩⟩⟩ <;>
    simp [acMid]

/-- C7 (counterexample): the claim's pattern ("three alphanumeric
characters") disagrees with the code's `[A-Z,0-9]` classes in both
directions: `"A1,AB2"` (a comma, not alphanumeric) IS matched and even
adopted as `current_record_id`, while `"A1abc2"` (lowercase
alphanumerics) is NOT matched. -/
theorem tcc_C7_cex :
    (acMatch "A1,AB2\n").isSome ≠ secIdAlnumSpec "A1,AB2\n"
    ∧ (acMatch "A1abc2\n").isSome ≠ secIdAlnumSpec "A1abc2\n"
    ∧ (scanLine (initState 0) "A1,AB2\n").current_entry = some "A1,AB2" := by
  refine ⟨by decide, by decide, by decide⟩

/-- C7 (amended): a line is classified as a secondary identifier line
exactly when its first six characters match: one uppercase letter, one
digit, three characters each an uppercase letter, a comma or a digit,
one digit — and the matched token is that six-character head (first
conjunct, an equation valid in both directions).  On any such line that
is not a record-start, `"AC:"`, or record-end line, the new
`current_record_id` is the old one when set (never overwritten) and
otherwise the matched token, i.e. `Option.or` of old value and match
result (second conjunct). -/
theorem tcc_C7 (st : ScanState) (line : String)
    (h1 : pyStartsWith line "AC " = false)
    (h2 : pyStartsWith line "AC:" = false)
    (h4 : pyStartsWith line "//" = false) :
    acMatch line
      = (if acMatchSpec line = true then some (String.mk (line.data.take 6))
         else none)
    ∧ (scanLine st line).current_entry = st.current_entry.or (acMatch line) := by
  refine ⟨acMatch_eq_spec line, ?_⟩
  cases hm : acMatch line with
  | none =>
    by_cases h5 : pyStartsWith line "##" = true
    · by_cases h6 : st.fb_block = false <;>
        simp [scanLine, h1, h2, hm, h5, h6, h4]
    · simp [scanLine, h1, h2, hm, h5, h4]
  | some m =>
    cases hce : st.current_entry with
    | none => simp [scanLine, h1, h2, hm, hce]
    | some a => simp [scanLine, h1, h2, hm, hce]

/-- Witness for C7 at a concrete state and line. -/
theorem tcc_C7_witness :
    pyStartsWith "A1BCD2x\n" "AC " = false
    ∧ pyStartsWith "A1BCD2x\n" "AC:" = false
    ∧ pyStartsWith "A1BCD2x\n" "//" = false
    ∧ (acMatch "A1BCD2x\n"
         = (if acMatchSpec "A1BCD2x\n" = true
            then some (String.mk ("A1BCD2x\n".data.take 6)) else none)
       ∧ (scanLine (initState 5) "A1BCD2x\n").current_entry
           = (initState 5).current_entry.or (acMatch "A1BCD2x\n")) :=
  ⟨by decide, by decide, by decide,
   tcc_C7 (initState 5) "A1BCD2x\n" (by decide) (by decide) (by decide)⟩

/-- C8: when a `##` line opens a new annotation block, the captured
context has at most the requested number of lines (the directive value,
default 1) and at most the number of lines consumed since the most
recent record boundary (or since the start of the stream). -/
theorem tcc_C8 (c : Nat) (lines : List String) (l : String)
    (h1 : pyStartsWith l "AC " = false) (h2 : pyStartsWith l "AC:" = false)
    (h3 : acMatch l = none) (h4 : pyStartsWith l "##" = true)
    (h5 : (scanLines (initState c) lines).fb_block = false) :
    (scanLines (initState c) (lines ++ [l])).all_feedback
      = (scanLines (initState c) lines).all_feedback
        ++ [{ id := (scanLines (initState c) lines).counter,
              feedback := addFeedbackText l,
              context := extractContext
                (pushScanner (scanLines (initState c) lines).scanner (pyStrip l))
                (checkForContext 1 l),
              ac := (scanLines (initState c) lines).current_entry }]
    ∧ (extractContextList
          (pushScanner (scanLines (initState c) lines).scanner (pyStrip l))
          (checkForContext 1 l)).length ≤ checkForContext 1 l
    ∧ (extractContextList
          (pushScanner (scanLines (initState c) lines).scanner (pyStrip l))
          (checkForContext 1 l)).length ≤ linesSinceBoundary (lines ++ [l]) := by
  refine ⟨?_, ?_, ?_⟩
  · rw [scanLines_concat]
    exact scanLine_annot_feedback _ _ h1 h2 h3 h4 h5
  · rw [extractContextList_length]
    exact min_le_left _ _
  · have hns : pyStartsWith l "//" = false := hash_not_slash l h4
    rw [extractContextList_length, pushScanner_length, scanLines_scanner_length,
        linesSinceBoundary_append, if_neg (by simp [hns])]
    omega

/-- Witness for C8 on an empty prefix and a directive line. -/
theorem tcc_C8_witness :
    pyStartsWith "## #5 a\n" "AC " = false
    ∧ pyStartsWith "## #5 a\n" "AC:" = false
    ∧ acMatch "## #5 a\n" = none
    ∧ pyStartsWith "## #5 a\n" "##" = true
    ∧ (scanLines (initState 0) []).fb_block = false
    ∧ ((scanLines (initState 0) ([] ++ ["## #5 a\n"])).all_feedback
        = (scanLines (initState 0) []).all_feedback
          ++ [{ id := (scanLines (initState 0) []).counter,
                feedback := addFeedbackText "## #5 a\n",
                context := extractContext
                  (pushScanner (scanLines (initState 0) []).scanner
                    (pyStrip "## #5 a\n"))
                  (checkForContext 1 "## #5 a\n"),
                ac := (scanLines (initState 0) []).current_entry }]
       ∧ (extractContextList
            (pushScanner (scanLines (initState 0) []).scanner
              (pyStrip "## #5 a\n"))
            (checkForContext 1 "## #5 a\n")).length ≤ checkForContext 1 "## #5 a\n"
       ∧ (extractContextList
            (pushScanner (scanLines (initState 0) []).scanner
              (pyStrip "## #5 a\n"))
            (checkForContext 1 "## #5 a\n")).length
          ≤ linesSinceBoundary ([] ++ ["## #5 a\n"])) :=
  ⟨by decide, by decide, by decide, by decide, rfl,
   tcc_C8 0 [] "## #5 a\n" (by decide) (by decide) (by decide) (by decide) rfl⟩

/-- C9 (counterexample): the id counter `Feedback._ids` is a class
attribute — process-wide, not per-`Report` — so the first run over the
stream ends with the counter at 1, and a second run with a fresh
`Report` in the same process mints ids starting at 1: the two ordered
item sequences differ (in the `id` field). -/
theorem tcc_C9_cex :
    (parse 0 ["## a\n", "//\n"]).map (fun r => r.2.2) = some 1
    ∧ (parse 0 ["## a\n", "//\n"]).map (fun r => r.1)
        ≠ (parse 1 ["## a\n", "//\n"]).map (fun r => r.1) := by
  constructor
  · decide
  · decide

/-- C9 (amended): two complete runs over the same stream with fresh
parser state agree in every field except the process-wide sequence id:
a run starting with the counter at `c` returns exactly the counter-0
run with every item's id shifted by `c` (and the final counter shifted
by `c`); since the counter advances by one per created item, a second
run's ids are offset by the number of items created before it. -/
theorem tcc_C9 (c : Nat) (lines : List String) :
    parse c lines
      = (parse 0 lines).map
          (fun r => (r.1.map (shiftFb c), r.2.1, r.2.2 + c)) := by
  simp only [parse]
  rw [initState_shift, scanLines_shift]
  simp only [shiftScan]
  rw [retrofitGo_map_shift]
  cases retrofitGo (scanLines (initState 0) lines).all_accessions
      (scanLines (initState 0) lines).all_feedback <;> simp

/-- C10: the context directive is the first `#`-plus-digits occurrence
anywhere in the block's first line: `"##5 note"` sets the size to 5
(the marker's own second `#` serves as the directive marker), and a
ticket-style token such as `#42` inside the text acts as a two-digit
directive, setting the size to 9. -/
theorem tcc_C10 (st : ScanState) (h : st.fb_block = false) :
    (scanLine st "##5 note\n").current_context = 5
    ∧ (scanLine st "## fix bug #42\n").current_context = 9 := by
  constructor
  · rw [scanLine_annot_context st _ (by decide) (by decide) (by decide) (by decide) h]
    decide
  · rw [scanLine_annot_context st _ (by decide) (by decide) (by decide) (by decide) h]
    decide

/-- Witness for C10 at a concrete state. -/
theorem tcc_C10_witness :
    (initState 0).fb_block = false
    ∧ ((scanLine (initState 0) "##5 note\n").current_context = 5
       ∧ (scanLine (initState 0) "## fix bug #42\n").current_context = 9) :=
  ⟨rfl, tcc_C10 (initState 0) rfl⟩

end Tcc
